import Mathlib

/-!
Verification development for the conversation-history state manager
(`useHistory` hook) of the pluely chat client.

The hook owns: a cached conversation list with a loading flag, single-item
view/delete state, transient download/attach flags, and a batch-selection
state machine.  Store calls (`getAllConversations`, `deleteConversation`)
are asynchronous and may fail; their outcomes are passed in explicitly as
oracle parameters.  Broadcasts (`conversationDeleted` custom events) and
attempted store deletions are returned as explicit lists of identifiers.

JS `Set` values are modelled as insertion-ordered duplicate-free lists,
matching `for...of` / `forEach` iteration order.
-/

namespace Pluely

/-- A chat message: role string (user/assistant/system) and text content. -/
structure Message where
  role : String
  content : String
deriving DecidableEq, Repr

/-- A conversation as held in the cache: id, title, timestamps, messages. -/
structure ChatConversation where
  id : String
  title : String
  createdAt : Nat
  updatedAt : Nat
  messages : List Message
deriving DecidableEq, Repr

/-- The state owned by the `useHistory` hook (all `useState` slots). -/
structure HistoryState where
  isLoading : Bool
  conversations : List ChatConversation
  search : String
  selectedConversationId : Option String
  viewingConversation : Option ChatConversation
  downloadedConversations : List String
  deleteConfirm : Option String
  isDownloaded : Bool
  isAttached : Bool
  isSelectionMode : Bool
  selectedIds : List String
  batchDeleteConfirm : Bool
deriving DecidableEq, Repr

/-- Initial state of the hook: every flag false, every collection empty. -/
def initState : HistoryState :=
  { isLoading := false
    conversations := []
    search := ""
    selectedConversationId := none
    viewingConversation := none
    downloadedConversations := []
    deleteConfirm := none
    isDownloaded := false
    isAttached := false
    isSelectionMode := false
    selectedIds := []
    batchDeleteConfirm := false }

/-- JS `Set.add`: append the element if absent (insertion order preserved). -/
def setAdd (l : List String) (id : String) : List String :=
  if l.contains id then l else l ++ [id]

/-- JS `Set.delete`: remove the element, keeping the order of the rest. -/
def setDelete (l : List String) (id : String) : List String :=
  l.filter (fun x => !(x == id))

/-- JS `new Set(list)`: de-duplicate keeping the first occurrence of each. -/
def dedupKeepFirst (seen : List String) : List String → List String
  | [] => []
  | x :: xs =>
    if seen.contains x then dedupKeepFirst seen xs
    else x :: dedupKeepFirst (x :: seen) xs

/-- JS truthiness of a `string | null` slot: `null` and `""` are falsy. -/
def optionTruthy : Option String → Bool
  | none => false
  | some v => !v.isEmpty

/-- Embeds `refreshConversations` (part_000 lines 81-92).  `res` is the
outcome of `getAllConversations()`: `some loaded` on success, `none` on a
thrown error.  Returns the state while the call is in flight (after
`setIsLoading(true)`) and the state after the `finally` block. -/
def refreshConversations (res : Option (List ChatConversation))
    (s : HistoryState) : HistoryState × HistoryState :=
  let during := { s with isLoading := true }
  let afterFetch :=
    match res with
    | some loadedConversations => { during with conversations := loadedConversations }
    | none => { during with conversations := [] }
  (during, { afterFetch with isLoading := false })

/-- Embeds `handleViewConversation` (lines 99-101). -/
def handleViewConversation (conversation : ChatConversation)
    (s : HistoryState) : HistoryState :=
  { s with viewingConversation := some conversation }

/-- Embeds `handleDownloadConversation` (lines 103-145).  `exportOk` is
false when markdown generation or the save step throws.  The second
component lists the ids for which the call armed an auto-clear timer. -/
def handleDownloadConversation (exportOk : Bool)
    (conversation : ChatConversation) (s : HistoryState) :
    HistoryState × List String :=
  let s1 := { s with downloadedConversations :=
                setAdd s.downloadedConversations conversation.id }
  if exportOk then
    (s1, [conversation.id])
  else
    ({ s1 with downloadedConversations :=
         setDelete s1.downloadedConversations conversation.id }, [])

/-- Embeds `handleDeleteConfirm` (lines 147-149). -/
def handleDeleteConfirm (conversationId : String)
    (s : HistoryState) : HistoryState :=
  { s with deleteConfirm := some conversationId }

/-- Embeds `confirmDelete` (lines 151-171).  `ok` is the outcome of
`deleteConversation(deleteConfirm)`.  Returns the new state, the list of
store deletions attempted, and the list of broadcast payloads.  The JS
guard `if (!deleteConfirm) return` treats both `null` and `""` as absent. -/
def confirmDelete (ok : Bool) (s : HistoryState) :
    HistoryState × List String × List String :=
  if !(optionTruthy s.deleteConfirm) then (s, [], [])
  else
    match s.deleteConfirm with
    | none => (s, [], [])
    | some target =>
      let s1 := { s with selectedConversationId := none
                         viewingConversation := none }
      if ok then
        ({ s1 with
            conversations := s1.conversations.filter (fun c => !(c.id == target))
            deleteConfirm := none },
         [target], [target])
      else
        ({ s1 with deleteConfirm := none }, [target], [])

/-- Embeds `cancelDelete` (lines 173-175). -/
def cancelDelete (s : HistoryState) : HistoryState :=
  { s with deleteConfirm := none }

/-- Embeds `toggleSelectionMode` (lines 178-181). -/
def toggleSelectionMode (s : HistoryState) : HistoryState :=
  { s with isSelectionMode := !s.isSelectionMode
           selectedIds := [] }

/-- Embeds `toggleSelectItem` (lines 183-193). -/
def toggleSelectItem (id : String) (s : HistoryState) : HistoryState :=
  { s with selectedIds :=
      if s.selectedIds.contains id then setDelete s.selectedIds id
      else s.selectedIds ++ [id] }

/-- Embeds `selectAll` (lines 195-197). -/
def selectAll (s : HistoryState) : HistoryState :=
  { s with selectedIds :=
      dedupKeepFirst [] (s.conversations.map (fun c => c.id)) }

/-- Embeds `deselectAll` (lines 199-201). -/
def deselectAll (s : HistoryState) : HistoryState :=
  { s with selectedIds := [] }

/-- Embeds `handleBatchDeleteConfirm` (lines 203-207). -/
def handleBatchDeleteConfirm (s : HistoryState) : HistoryState :=
  if s.selectedIds.length > 0 then { s with batchDeleteConfirm := true } else s

/-- Embeds the `for (const id of selectedIds) await deleteConversation(id)`
loop of `confirmBatchDelete`: deletions run sequentially and the first
rejected promise aborts the loop (the exception escapes to the `catch`).
Returns the ids for which a store deletion was attempted and whether the
whole loop completed without a failure. -/
def runDeletes (ok : String → Bool) : List String → List String × Bool
  | [] => ([], true)
  | id :: rest =>
    if ok id then
      let r := runDeletes ok rest
      (id :: r.1, r.2)
    else
      ([id], false)

/-- Embeds `confirmBatchDelete` (lines 209-240).  `ok id` is the outcome of
`deleteConversation(id)`.  Returns the new state, the attempted store
deletions in order, and the broadcast payloads in order.  On any failure the
`catch` block only logs, and the `finally` block closes the dialog. -/
def confirmBatchDelete (ok : String → Bool) (s : HistoryState) :
    HistoryState × List String × List String :=
  if s.selectedIds.length == 0 then (s, [], [])
  else
    let r := runDeletes ok s.selectedIds
    if r.2 then
      ({ s with
          conversations :=
            s.conversations.filter (fun c => !(s.selectedIds.contains c.id))
          selectedIds := []
          isSelectionMode := false
          batchDeleteConfirm := false },
       r.1, s.selectedIds)
    else
      ({ s with batchDeleteConfirm := false }, r.1, [])

/-- Embeds `cancelBatchDelete` (lines 242-244). -/
def cancelBatchDelete (s : HistoryState) : HistoryState :=
  { s with batchDeleteConfirm := false }

/-- Embeds the state part of `handleAttachToOverlay` (lines 246-256); the
localStorage write is external. -/
def handleAttachToOverlay (s : HistoryState) : HistoryState :=
  { s with isAttached := true }

/-- ASCII-alphanumeric test: the regex character class `[^a-z0-9]` with the
`i` flag matches exactly the characters outside this set. -/
def isAsciiAlphanum (c : Char) : Bool :=
  ('a' ≤ c && c ≤ 'z') || ('A' ≤ c && c ≤ 'Z') || ('0' ≤ c && c ≤ '9')

/-- Embeds the `forEach` loop of `generateConversationMarkdown`
(lines 284-291): message at index `i` contributes
`## ROLE: content\n`, plus an extra `\n` when `i < total - 1`. -/
def messagesMarkdownAux (total : Nat) : Nat → List Message → String
  | _, [] => ""
  | i, message :: rest =>
    ("## " ++ message.role.toUpper ++ ": " ++ message.content ++ "\n"
        ++ (if i < total - 1 then "\n" else ""))
      ++ messagesMarkdownAux total (i + 1) rest

/-- Embeds `generateConversationMarkdown` (lines 272-294).  `fmt` stands in
for `new Date(t).toLocaleString()`, whose output is locale-dependent. -/
def generateConversationMarkdown (fmt : Nat → String)
    (conversation : ChatConversation) : String :=
  "# " ++ conversation.title ++ "\n\n"
    ++ "**Created:** " ++ fmt conversation.createdAt ++ "\n"
    ++ "**Updated:** " ++ fmt conversation.updatedAt ++ "\n"
    ++ "**Messages:** " ++ toString conversation.messages.length ++ "\n\n---\n\n"
    ++ messagesMarkdownAux conversation.messages.length 0 conversation.messages

/-- Embeds `generateFilename` (lines 296-299): replace every character
outside the class with `_` (regex `/[^a-z0-9]/gi`), lower-case each
character (`toLowerCase`), take the first 16 characters (`substring(0,16)`;
after sanitisation every character is ASCII so code-unit and character
counts agree), append `.md`. -/
def generateFilename (title : String) : String :=
  let sanitizedTitle : List Char :=
    (title.data.map (fun c => if isAsciiAlphanum c then c else '_')).map
      Char.toLower
  (⟨sanitizedTitle.take 16⟩ : String) ++ ".md"

/-- States reachable from the initial hook state by the hook's actions
(store-call outcomes quantified over all possibilities).  The timer
callbacks that clear transient download/attach flags are omitted; since
this only restricts the action set, every state shown reachable here is
reachable for the full hook. -/
inductive Reachable : HistoryState → Prop where
  | init : Reachable initState
  | refresh (s res) : Reachable s → Reachable (refreshConversations res s).2
  | view (s c) : Reachable s → Reachable (handleViewConversation c s)
  | download (s okE c) : Reachable s →
      Reachable (handleDownloadConversation okE c s).1
  | requestDelete (s id) : Reachable s → Reachable (handleDeleteConfirm id s)
  | doConfirmDelete (s ok) : Reachable s → Reachable (confirmDelete ok s).1
  | doCancelDelete (s) : Reachable s → Reachable (cancelDelete s)
  | toggleMode (s) : Reachable s → Reachable (toggleSelectionMode s)
  | toggleItem (s id) : Reachable s → Reachable (toggleSelectItem id s)
  | doSelectAll (s) : Reachable s → Reachable (selectAll s)
  | doDeselectAll (s) : Reachable s → Reachable (deselectAll s)
  | requestBatch (s) : Reachable s → Reachable (handleBatchDeleteConfirm s)
  | doConfirmBatch (s ok) : Reachable s →
      Reachable (confirmBatchDelete ok s).1
  | doCancelBatch (s) : Reachable s → Reachable (cancelBatchDelete s)
  | attach (s) : Reachable s → Reachable (handleAttachToOverlay s)

/-- Spec-described join of message blocks: consecutive blocks separated by
exactly one blank line. -/
def specJoinBlocks : List String → String
  | [] => ""
  | [x] => x
  | x :: xs => x ++ "\n\n" ++ specJoinBlocks xs

/-- Modelled from the spec's words (§4.2 markdown export): for each message
in order a level-2 heading of the upper-cased role, `": "`, and the content;
exactly one blank line between consecutive messages; no trailing blank line
after the final message (the document ends with the heading line's own
newline). -/
def specMessagesBlock (msgs : List Message) : String :=
  match msgs with
  | [] => ""
  | _ =>
    specJoinBlocks
      (msgs.map (fun m => "## " ++ m.role.toUpper ++ ": " ++ m.content))
      ++ "\n"

/-- Modelled from the spec's words (§4.2): level-1 heading equal to the
title, metadata lines for created time, updated time and message count, a
horizontal rule, then the message blocks. -/
def specMarkdownDoc (fmt : Nat → String)
    (conversation : ChatConversation) : String :=
  "# " ++ conversation.title ++ "\n\n"
    ++ "**Created:** " ++ fmt conversation.createdAt ++ "\n"
    ++ "**Updated:** " ++ fmt conversation.updatedAt ++ "\n"
    ++ "**Messages:** " ++ toString conversation.messages.length ++ "\n\n---\n\n"
    ++ specMessagesBlock conversation.messages

/-- Modelled from the spec's words (§4.2 filename): replace every character
outside `[a-zA-Z0-9]` with `_`, lower-case the result, truncate to at most
16 characters, append `.md`. -/
def specFilename (title : String) : String :=
  (⟨((title.data.map
        (fun c => if c.isAlpha || c.isDigit then c else '_')).map
      Char.toLower).take 16⟩ : String) ++ ".md"

/-! Concrete fixtures used by counterexamples and witnesses. -/

/-- A conversation with identifier `a`. -/
def convA : ChatConversation :=
  { id := "a", title := "Conversation A", createdAt := 0, updatedAt := 0,
    messages := [] }

/-- A conversation with identifier `b`. -/
def convB : ChatConversation :=
  { id := "b", title := "Conversation B", createdAt := 0, updatedAt := 0,
    messages := [] }

/-- A conversation with identifier `c`. -/
def convC : ChatConversation :=
  { id := "c", title := "Conversation C", createdAt := 0, updatedAt := 0,
    messages := [] }

/-- A conversation whose identifier is the empty string. -/
def convE : ChatConversation :=
  { id := "", title := "Untitled", createdAt := 0, updatedAt := 0,
    messages := [] }

/-- Batch-selection state: two cached conversations, both selected, the
batch-confirmation dialog open. -/
def sBatch2 : HistoryState :=
  { initState with conversations := [convA, convB], isSelectionMode := true,
                   selectedIds := ["a", "b"], batchDeleteConfirm := true }

/-- Batch-selection state: three cached conversations, all selected, the
batch-confirmation dialog open. -/
def sBatch3 : HistoryState :=
  { initState with conversations := [convA, convB, convC],
                   isSelectionMode := true, selectedIds := ["a", "b", "c"],
                   batchDeleteConfirm := true }

/-- State with a pending single-item delete-confirm on identifier `a`. -/
def sDel : HistoryState :=
  { initState with conversations := [convA], deleteConfirm := some "a" }

/-- State with a pending single-item delete-confirm on the empty string. -/
def sEmptyId : HistoryState :=
  { initState with conversations := [convE], deleteConfirm := some convE.id }

/-- Store oracle on which every deletion succeeds. -/
def okAll : String → Bool := fun _ => true

/-- Store oracle on which the deletion of `b` fails and all others succeed. -/
def okDropB : String → Bool := fun id => !(id == "b")

end Pluely

namespace Pluely

/-! Helper lemmas. -/

/-- The sequential deletion loop attempts every identifier and reports
success when the store succeeds on each of them. -/
theorem runDeletes_all_ok (ok : String → Bool) :
    ∀ l : List String, (∀ id ∈ l, ok id = true) → runDeletes ok l = (l, true) := by
  intro l
  induction l with
  | nil => intro _; rfl
  | cons id rest ih =>
    intro h
    have hid : ok id = true := h id (List.mem_cons_self _ _)
    have hrest := ih (fun x hx => h x (List.mem_cons_of_mem _ hx))
    simp [runDeletes, hid, hrest]

/-- The sequential deletion loop reports failure whenever the store fails
on some identifier in the list. -/
theorem runDeletes_snd_false (ok : String → Bool) :
    ∀ l : List String, (∃ id ∈ l, ok id = false) → (runDeletes ok l).2 = false := by
  intro l
  induction l with
  | nil => intro h; simp at h
  | cons id rest ih =>
    intro h
    cases hid : ok id with
    | false => simp [runDeletes, hid]
    | true =>
      simp only [runDeletes, hid, if_true]
      apply ih
      obtain ⟨x, hx, hxf⟩ := h
      cases List.mem_cons.mp hx with
      | inl heq => subst heq; rw [hid] at hxf; exact absurd hxf (by simp)
      | inr hmem => exact ⟨x, hmem, hxf⟩

/-- The `selectedIds.size === 0` guard is false on a non-empty selection. -/
theorem selectedIds_guard_false (s : HistoryState) (hne : s.selectedIds ≠ []) :
    (s.selectedIds.length == 0) = false := by
  simp [List.length_eq_zero, hne]

/-- Two consecutive newline strings merge into one blank-line separator. -/
theorem nl_nl_append (X : String) :
    ("\n" : String) ++ ("\n" ++ X) = "\n\n" ++ X := by
  rw [← String.append_assoc]
  rfl

/-- The indexed `forEach` loop of the markdown generator produces exactly
the spec-described block list: one blank line between consecutive messages,
none after the final one. -/
theorem messagesMarkdownAux_eq_spec (msgs : List Message) :
    ∀ i : Nat, messagesMarkdownAux (i + msgs.length) i msgs = specMessagesBlock msgs := by
  induction msgs with
  | nil => intro i; rfl
  | cons m rest ih =>
    intro i
    cases rest with
    | nil =>
      simp only [messagesMarkdownAux, specMessagesBlock, specJoinBlocks,
        List.length_cons, List.length_nil, List.map_cons, List.map_nil,
        Nat.zero_add, Nat.add_sub_cancel, Nat.lt_irrefl, if_false]
      simp [String.append_assoc, String.append_empty]
    | cons m2 rest2 =>
      have unfold1 : messagesMarkdownAux (i + (m :: m2 :: rest2).length) i (m :: m2 :: rest2)
          = ("## " ++ m.role.toUpper ++ ": " ++ m.content ++ "\n"
              ++ (if i < i + (m :: m2 :: rest2).length - 1 then "\n" else ""))
            ++ messagesMarkdownAux (i + (m :: m2 :: rest2).length) (i + 1) (m2 :: rest2) := rfl
      have hlen2 : (m2 :: rest2).length = rest2.length + 1 := rfl
      have hlen3 : (m :: m2 :: rest2).length = rest2.length + 2 := rfl
      have htot : i + (m :: m2 :: rest2).length = (i + 1) + (m2 :: rest2).length := by
        rw [hlen2, hlen3]; omega
      rw [unfold1, htot, ih (i + 1)]
      rw [if_pos (by rw [hlen2]; omega : i < (i + 1) + (m2 :: rest2).length - 1)]
      simp [specMessagesBlock, specJoinBlocks, String.append_assoc, nl_nl_append]

/-- The source's ASCII-alphanumeric test agrees with the library's
`Char.isAlpha`/`Char.isDigit` formulation used by the spec-side filename. -/
theorem isAsciiAlphanum_eq (c : Char) :
    isAsciiAlphanum c = (c.isAlpha || c.isDigit) := by
  have ha : ('a' : Char).val = 97 := rfl
  have hz : ('z' : Char).val = 122 := rfl
  have hA : ('A' : Char).val = 65 := rfl
  have hZ : ('Z' : Char).val = 90 := rfl
  have h0 : ('0' : Char).val = 48 := rfl
  have h9 : ('9' : Char).val = 57 := rfl
  rw [Bool.eq_iff_iff]
  simp only [isAsciiAlphanum, Char.isAlpha, Char.isUpper, Char.isLower,
    Char.isDigit, Bool.or_eq_true, Bool.and_eq_true, decide_eq_true_eq,
    ge_iff_le, Char.le_def, ha, hz, hA, hZ, h0, h9]
  tauto

/-! Claim theorems. -/

/-- Claim C1, counterexample to the claim as stated: with both `a` and `b`
selected and the store succeeding on `a` but failing on `b`, both deletions
are attempted, yet after the call neither identifier has been removed from
the cached list and no deletion broadcast was emitted — contradicting the
claim that all selected identifiers are removed and broadcast. -/
theorem confirmBatchDelete_partial_failure_counterexample :
    okDropB "a" = true ∧ okDropB "b" = false ∧
    sBatch2.selectedIds = ["a", "b"] ∧
    (confirmBatchDelete okDropB sBatch2).2.1 = ["a", "b"] ∧
    ((confirmBatchDelete okDropB sBatch2).1).conversations = [convA, convB] ∧
    (confirmBatchDelete okDropB sBatch2).2.2 = [] := by decide

/-- Claim C1, amended: if during `confirmBatchDelete` some per-identifier
store deletions succeed and others fail, the exception aborts the batch:
the cached list, selection set and selection mode are left unchanged and no
deletion broadcast is emitted; only the batch-confirmation dialog is
closed. -/
theorem confirmBatchDelete_partial_failure_leaves_cache
    (ok : String → Bool) (s : HistoryState)
    (hne : s.selectedIds ≠ [])
    (hfail : ∃ id ∈ s.selectedIds, ok id = false) :
    (confirmBatchDelete ok s).1 = { s with batchDeleteConfirm := false } ∧
    (confirmBatchDelete ok s).2.2 = [] := by
  have h2 := runDeletes_snd_false ok s.selectedIds hfail
  simp [confirmBatchDelete, selectedIds_guard_false s hne, h2]

/-- Witness for the amended claim C1 at the concrete two-item selection
where the deletion of `b` fails. -/
theorem confirmBatchDelete_partial_failure_leaves_cache_witness :
    (confirmBatchDelete okDropB sBatch2).1 =
      { sBatch2 with batchDeleteConfirm := false } ∧
    (confirmBatchDelete okDropB sBatch2).2.2 = [] :=
  confirmBatchDelete_partial_failure_leaves_cache okDropB sBatch2
    (by decide) (by decide)

/-- Claim C2, counterexample to the claim as stated: with `a`, `b`, `c`
selected and the store failing on `b`, no store deletion is attempted for
`c`, and the cache, selection set and selection mode are all left unchanged
— contradicting the claim that every selected identifier is attempted and
that the removal, broadcasts and selection reset happen regardless of
failure. -/
theorem confirmBatchDelete_attempts_counterexample :
    sBatch3.selectedIds = ["a", "b", "c"] ∧
    (confirmBatchDelete okDropB sBatch3).2.1 = ["a", "b"] ∧
    ((confirmBatchDelete okDropB sBatch3).1).conversations = [convA, convB, convC] ∧
    ((confirmBatchDelete okDropB sBatch3).1).selectedIds = ["a", "b", "c"] ∧
    ((confirmBatchDelete okDropB sBatch3).1).isSelectionMode = true := by decide

/-- Claim C2, amended: for every non-empty selection set, when every store
deletion succeeds `confirmBatchDelete` attempts a deletion for each selected
identifier in iteration order, removes all selected identifiers from the
cached list in one update, emits exactly one deletion broadcast per
identifier in iteration order, clears the selection set and exits selection
mode; the batch-confirmation dialog is closed regardless of the store
outcomes. -/
theorem confirmBatchDelete_all_success_spec
    (ok : String → Bool) (s : HistoryState)
    (hne : s.selectedIds ≠ [])
    (hok : ∀ id ∈ s.selectedIds, ok id = true) :
    confirmBatchDelete ok s =
      ({ s with
          conversations :=
            s.conversations.filter (fun c => !(s.selectedIds.contains c.id))
          selectedIds := []
          isSelectionMode := false
          batchDeleteConfirm := false },
       s.selectedIds, s.selectedIds) ∧
    ∀ ok2 : String → Bool,
      ((confirmBatchDelete ok2 s).1).batchDeleteConfirm = false := by
  constructor
  · have hr := runDeletes_all_ok ok s.selectedIds hok
    simp [confirmBatchDelete, selectedIds_guard_false s hne, hr]
  · intro ok2
    cases h2 : (runDeletes ok2 s.selectedIds).2 <;>
      simp [confirmBatchDelete, selectedIds_guard_false s hne, h2]

/-- Witness for the amended claim C2 at the concrete two-item selection:
an all-success run, and the dialog closing on a failing run. -/
theorem confirmBatchDelete_all_success_spec_witness :
    confirmBatchDelete okAll sBatch2 =
      ({ sBatch2 with
          conversations :=
            sBatch2.conversations.filter
              (fun c => !(sBatch2.selectedIds.contains c.id))
          selectedIds := []
          isSelectionMode := false
          batchDeleteConfirm := false },
       sBatch2.selectedIds, sBatch2.selectedIds) ∧
    ((confirmBatchDelete okDropB sBatch2).1).batchDeleteConfirm = false :=
  ⟨(confirmBatchDelete_all_success_spec okAll sBatch2 (by decide) (by decide)).1,
   (confirmBatchDelete_all_success_spec okAll sBatch2 (by decide) (by decide)).2 okDropB⟩

/-- Claim C3, counterexample to the claim as stated: `toggleSelectItem` is
not guarded by selection mode, so from the initial state a single call
reaches a state whose selection set is non-empty while selection mode is
off — contradicting the claimed invariant over all reachable states. -/
theorem selection_set_invariant_counterexample :
    Reachable (toggleSelectItem "a" initState) ∧
    (toggleSelectItem "a" initState).isSelectionMode = false ∧
    (toggleSelectItem "a" initState).selectedIds = ["a"] :=
  ⟨Reachable.toggleItem initState "a" Reachable.init, by decide, by decide⟩

/-- Claim C3, amended: `toggleSelectionMode` (in either direction) always
leaves the selection set empty, and a batch delete whose store deletions
all succeed leaves the selection set empty; the full invariant fails
because `toggleSelectItem` and `selectAll` are not guarded by selection
mode. -/
theorem selection_set_cleared_amended (s : HistoryState) (ok : String → Bool) :
    (toggleSelectionMode s).selectedIds = [] ∧
    ((∀ id ∈ s.selectedIds, ok id = true) →
      ((confirmBatchDelete ok s).1).selectedIds = []) := by
  refine ⟨rfl, ?_⟩
  intro hok
  by_cases hne : s.selectedIds = []
  · simp [confirmBatchDelete, hne]
  · have hr := runDeletes_all_ok ok s.selectedIds hok
    simp [confirmBatchDelete, selectedIds_guard_false s hne, hr]

/-- Witness for the amended claim C3 at the concrete two-item selection
with an all-success store. -/
theorem selection_set_cleared_amended_witness :
    (toggleSelectionMode sBatch2).selectedIds = [] ∧
    ((confirmBatchDelete okAll sBatch2).1).selectedIds = [] :=
  ⟨(selection_set_cleared_amended sBatch2 okAll).1,
   (selection_set_cleared_amended sBatch2 okAll).2 (by decide)⟩

/-- Claim C4, counterexample to the claim as stated: for a cached
conversation whose identifier is the empty string, with the pending
delete-confirm holding that identifier, `confirmDelete` is a no-op even
when the store would succeed, because the JS guard `if (!deleteConfirm)`
treats `""` as absent: the conversation stays in the cache, no broadcast is
emitted, and the pending identifier is not cleared. -/
theorem confirmDelete_empty_id_counterexample :
    sEmptyId.deleteConfirm = some convE.id ∧
    convE ∈ sEmptyId.conversations ∧
    confirmDelete true sEmptyId = (sEmptyId, [], []) ∧
    ((confirmDelete true sEmptyId).1).deleteConfirm = some "" := by decide

/-- Claim C4, amended: for every conversation C in the cache whose
identifier is non-empty, with a pending delete-confirm on C.id: if the
store call succeeds then afterwards C is absent from the cached list and
exactly one broadcast with payload C.id was emitted, and the pending
delete-confirm identifier is cleared whether the store call succeeds or
fails. -/
theorem confirmDelete_success_removes_target
    (s : HistoryState) (c : ChatConversation) (ok : Bool)
    (hmem : c ∈ s.conversations) (hd : s.deleteConfirm = some c.id)
    (hne : c.id ≠ "") :
    (ok = true →
       c ∉ ((confirmDelete ok s).1).conversations ∧
       (confirmDelete ok s).2.2 = [c.id]) ∧
    ((confirmDelete ok s).1).deleteConfirm = none := by
  have _hmem := hmem
  constructor
  · intro hok
    subst hok
    simp [confirmDelete, hd, optionTruthy, String.isEmpty_iff, hne,
      List.mem_filter]
  · cases ok <;>
      simp [confirmDelete, hd, optionTruthy, String.isEmpty_iff, hne]

/-- Witness for the amended claim C4 at the concrete state holding one
conversation with identifier `a` and a pending delete-confirm on it. -/
theorem confirmDelete_success_removes_target_witness :
    convA ∉ ((confirmDelete true sDel).1).conversations ∧
    (confirmDelete true sDel).2.2 = [convA.id] ∧
    ((confirmDelete true sDel).1).deleteConfirm = none :=
  ⟨((confirmDelete_success_removes_target sDel convA true (by decide) (by decide)
      (by decide)).1 rfl).1,
   ((confirmDelete_success_removes_target sDel convA true (by decide) (by decide)
      (by decide)).1 rfl).2,
   (confirmDelete_success_removes_target sDel convA true (by decide) (by decide)
      (by decide)).2⟩

/-- Claim C5, confirmed: for every conversation (and every rendering of the
locale-formatted timestamps), the generated markdown document is exactly
the spec-described shape: a level-1 heading equal to the title, metadata
lines for created time, updated time and message count, a horizontal rule,
then for each message in order a level-2 heading of the upper-cased role
followed by `": "` and the content, with exactly one blank line between
consecutive messages and no trailing blank line after the final message. -/
theorem generateConversationMarkdown_spec_format
    (fmt : Nat → String) (c : ChatConversation) :
    generateConversationMarkdown fmt c = specMarkdownDoc fmt c := by
  have h := messagesMarkdownAux_eq_spec c.messages 0
  rw [Nat.zero_add] at h
  simp [generateConversationMarkdown, specMarkdownDoc, h]

/-- Claim C6, confirmed: for every title the generated filename replaces
every character outside `[a-zA-Z0-9]` with `_`, lower-cases the result,
truncates to at most 16 characters and appends `.md`; in particular the
title `Hello, World! 2024` yields `hello__world__20.md`. -/
theorem generateFilename_spec_format :
    (∀ title : String, generateFilename title = specFilename title) ∧
    generateFilename "Hello, World! 2024" = "hello__world__20.md" := by
  constructor
  · intro title
    have hfun : (fun c => if isAsciiAlphanum c then c else '_')
        = (fun c => if c.isAlpha || c.isDigit then c else '_') := by
      funext ch
      rw [isAsciiAlphanum_eq]
    simp [generateFilename, specFilename, hfun]
  · rfl

/-- Claim C7, confirmed: `refreshConversations` sets the loading flag while
the store call is in flight and clears it when the call ends; on success
the cached list becomes the fetched list, on failure it becomes the empty
list. -/
theorem refreshConversations_spec
    (res : Option (List ChatConversation)) (s : HistoryState) :
    (refreshConversations res s).1 = { s with isLoading := true } ∧
    (refreshConversations res s).2 =
      { s with isLoading := false
               conversations := match res with
                                | some loaded => loaded
                                | none => [] } := by
  cases res <;> exact ⟨rfl, rfl⟩

/-- Claim C8, confirmed: if markdown generation or the save step throws,
then immediately after `handleDownloadConversation` returns, the
conversation's identifier is absent from the recently-downloaded set and
the call armed no auto-clear timer. -/
theorem handleDownloadConversation_failure_spec
    (s : HistoryState) (conversation : ChatConversation) :
    ((handleDownloadConversation false conversation s).1).downloadedConversations.contains
        conversation.id = false ∧
    (handleDownloadConversation false conversation s).2 = [] := by
  refine ⟨?_, rfl⟩
  simp [handleDownloadConversation, setDelete]

/-- Claim C9, confirmed: `confirmBatchDelete` on an empty selection set is
a complete no-op: no store deletions, no broadcasts, and the state — the
batch-confirmation dialog flag included — is returned unchanged. -/
theorem confirmBatchDelete_empty_noop
    (ok : String → Bool) (s : HistoryState) (h : s.selectedIds = []) :
    confirmBatchDelete ok s = (s, [], []) := by
  simp [confirmBatchDelete, h]

/-- Witness for claim C9 at the initial state. -/
theorem confirmBatchDelete_empty_noop_witness :
    confirmBatchDelete okAll initState = (initState, [], []) :=
  confirmBatchDelete_empty_noop okAll initState rfl

/-- Claim C10, confirmed: when the store call inside `confirmDelete` fails
(for a non-empty pending identifier), the cached list is unchanged and no
broadcast is emitted, while the currently-viewing and selected slots are
cleared and the pending delete-confirm identifier is reset. -/
theorem confirmDelete_store_failure_spec
    (s : HistoryState) (target : String)
    (hd : s.deleteConfirm = some target) (hne : target ≠ "") :
    confirmDelete false s =
      ({ s with selectedConversationId := none
                viewingConversation := none
                deleteConfirm := none }, [target], []) := by
  simp [confirmDelete, hd, optionTruthy, String.isEmpty_iff, hne]

/-- Witness for claim C10 at the concrete state with a pending
delete-confirm on `a`. -/
theorem confirmDelete_store_failure_spec_witness :
    confirmDelete false sDel =
      ({ sDel with selectedConversationId := none
                   viewingConversation := none
                   deleteConfirm := none }, ["a"], []) :=
  confirmDelete_store_failure_spec sDel "a" rfl (by decide)

end Pluely
